import Mathlib

/-!
# dubbo-go client dispatcher and service-instances listener

A shallow embedding of `client/client.go` (the `Client` type, its private
`call` primitive, the four `Call*` methods, `Init`, `generateInvocation`,
`NewClient`) and of `registry/listener/ServiceInstancesChangedListener.go`.

Conventions of the embedding.

* A Go pointer or interface value that may be `nil` is an `Option`.
* A Go `error` return is `Option GoError`; `none` is the `nil` error.
* A Go function with several results returns a tuple.
* A run-time panic is the `Outcome.panic` result.
* Methods with a pointer receiver return the receiver after the call.
* The Invoker is external: it is any function on an external state `σ`.
  A `World` carries that state together with the list of invocations the
  Invoker has received, so that "the Invoker is invoked" can be stated.
-/

namespace Dubbo

/-! ## Go runtime values -/

/-- Go `error` value: an error carrying its message. -/
structure GoError where
  msg : String
  deriving DecidableEq

/-- Go `errors.New`. -/
def errors.New (msg : String) : GoError := ⟨msg⟩

/-- Go `interface{}` value.  The dispatcher never inspects one; the only
value it creates itself is a boxed string (the call type). -/
inductive Value where
  | nil : Value
  | str : String → Value
  | obj : Nat → Value
  deriving DecidableEq

/-- Result of running a Go function: it returns, or the goroutine panics. -/
inductive Outcome (α : Type) where
  | ret : α → Outcome α
  | panic : String → Outcome α
  deriving DecidableEq

/-- Message of the run-time panic raised by a method call or field access
through a nil pointer or nil interface. -/
def nilDereference : String :=
  "invalid memory address or nil pointer dereference"

/-- Go `context.Context`, as far as a callee can observe it: `Err` is what
`ctx.Err()` reports (`nil` while the context is live), `Deadline` its
deadline if any. -/
structure Context where
  Err : Option GoError
  Deadline : Option Nat
  deriving DecidableEq

/-- Go `context.Canceled`. -/
def context.Canceled : GoError := ⟨"context canceled"⟩

/-- Go `context.DeadlineExceeded`. -/
def context.DeadlineExceeded : GoError := ⟨"context deadline exceeded"⟩

/-! ## Declarations used by `client.go` and declared outside it -/

/-- Modelled from the spec: the string constants `CallTypeKey`, `CallUnary`,
`CallClientStream`, `CallServerStream` and `CallBidiStream` of package
`common/constant`, which is missing from the sources.  Their values are not
given, so they are parameters of everything below. -/
structure Constant where
  CallTypeKey : String
  CallUnary : String
  CallClientStream : String
  CallServerStream : String
  CallBidiStream : String
  deriving DecidableEq

/-- Modelled from the spec: the Invocation envelope of package
`protocol/invocation`, which is missing from the sources.  It holds the
method name, the raw argument values in declaration order, and the
attribute map (side-channel metadata), kept as an association list with at
most one entry for a key.  The call type is not a field of its own:
`generateInvocation` records it in the attribute map. -/
structure RPCInvocation where
  methodName : String
  parameterRawValues : List Value
  attributes : List (String × Value)
  deriving DecidableEq

namespace RPCInvocation

/-- Modelled from the spec: the option `WithMethodName` of the missing
package `protocol/invocation`; it sets the method name. -/
def WithMethodName (methodName : String) (inv : RPCInvocation) : RPCInvocation :=
  { inv with methodName := methodName }

/-- Modelled from the spec: the option `WithParameterRawValues` of the
missing package `protocol/invocation`; it sets the raw argument values. -/
def WithParameterRawValues (ps : List Value) (inv : RPCInvocation) : RPCInvocation :=
  { inv with parameterRawValues := ps }

/-- Modelled from the spec: `NewRPCInvocationWithOptions` of the missing
package `protocol/invocation`; a fresh envelope (no sharing across calls)
to which the options are applied in order. -/
def NewRPCInvocationWithOptions (opts : List (RPCInvocation → RPCInvocation)) : RPCInvocation :=
  opts.foldl (fun inv opt => opt inv)
    { methodName := "", parameterRawValues := [], attributes := [] }

/-- Modelled from the spec: `SetAttribute` of the missing package
`protocol/invocation`; map assignment `attributes[key] = value`. -/
def SetAttribute (inv : RPCInvocation) (key : String) (value : Value) : RPCInvocation :=
  { inv with attributes := (key, value) :: inv.attributes.filter (fun kv => kv.1 ≠ key) }

/-- Modelled from the spec: reading the attribute map of the Invocation
envelope at a key. -/
def GetAttribute (inv : RPCInvocation) (key : String) : Option Value :=
  inv.attributes.lookup key

end RPCInvocation

/-- Modelled from the spec: `CallOptions` of the missing file
`client/options.go`: per-call configuration (timeout, retry count,
attachments). -/
structure CallOptions where
  RequestTimeout : String
  Retries : String
  Attachments : List (String × Value)
  deriving DecidableEq

/-- Modelled from the spec: `newDefaultCallOptions` of the missing file
`client/options.go`: the default baseline over which options are applied. -/
def newDefaultCallOptions : CallOptions :=
  { RequestTimeout := "", Retries := "", Attachments := [] }

/-- A `CallOption`: a function applied to the `CallOptions` of the call.  It
acts on nothing but the `CallOptions` value it receives. -/
abbrev CallOption := CallOptions → CallOptions

namespace protocol

set_option linter.dupNamespace false in
/-- The `protocol.Result` interface as the dispatcher uses it: `Result()`
is the value slot and `Error()` the error slot. -/
structure Result where
  Result : Value
  Error : Option GoError
  deriving DecidableEq

/-- The `protocol.Invoker` interface: `Invoke(ctx, invocation)` is any
function of the context, the invocation and the external state; it yields
a `Result` interface value (possibly nil) and the next external state. -/
structure Invoker (σ : Type) where
  Invoke : Context → RPCInvocation → σ → Option Result × σ

end protocol

/-- State outside the client: the external state the Invoker acts on, and
the record of every `Invoke` call made so far, oldest first. -/
structure World (σ : Type) where
  ext : σ
  invoked : List (Context × RPCInvocation)

/-- The `ClientInfo` struct.  `ClientInjectFunc` is a function value that
this file never calls; it is kept as a nullable reference. -/
structure ClientInfo where
  InterfaceName : String
  MethodNames : List String
  ClientInjectFunc : Option Nat
  Meta : List (String × Value)
  deriving DecidableEq

/-- Modelled from the spec: `ReferenceConfig` of the missing file
`client/reference_config.go`: the resolved configuration a dispatcher is
bound to.  `client.go` reads its `invoker` field; `Group`, `Version` and
`Cluster` are the other fields `client.go` names. -/
structure ReferenceConfig (σ : Type) where
  invoker : Option (protocol.Invoker σ)
  Group : String
  Version : String
  Cluster : String

/-- A `ReferenceOption`: a function applied to a `ReferenceConfig`. -/
abbrev ReferenceOption (σ : Type) := ReferenceConfig σ → ReferenceConfig σ

/-- The `Client` struct.  `cliOpts` points to a `ClientOptions`, a type
declared outside this file and never read here; it is kept as a nullable
reference. -/
structure Client (σ : Type) where
  invoker : Option (protocol.Invoker σ)
  info : Option ClientInfo
  cfg : Option (ReferenceConfig σ)
  cliOpts : Option Nat

/-! ## `client.go` -/

/-- Source `generateInvocation`: builds the envelope with the method name
and the raw parameters, records the call type under `CallTypeKey`, and
returns it with a nil error.  `opts` is not used. -/
def generateInvocation (K : Constant) (methodName : String) (paramsRawVals : List Value)
    (callType : String) (_opts : CallOptions) : RPCInvocation × Option GoError :=
  let inv := RPCInvocation.NewRPCInvocationWithOptions
    [RPCInvocation.WithMethodName methodName,
     RPCInvocation.WithParameterRawValues paramsRawVals]
  let inv := inv.SetAttribute K.CallTypeKey (Value.str callType)
  (inv, none)

namespace Client

variable {σ : Type}

/-- Source `Client.call`: resolves the options, builds the invocation,
returns the construction error if there is one, and otherwise calls
`cli.invoker.Invoke(ctx, inv)`, which panics when `cli.invoker` is nil. -/
def call (K : Constant) (cli : Client σ) (w : World σ) (ctx : Context)
    (paramsRawVals : List Value) (_interfaceName methodName callType : String)
    (opts : List CallOption) :
    Outcome (Option protocol.Result × Option GoError) × World σ :=
  let options := opts.foldl (fun o opt => opt o) newDefaultCallOptions
  match generateInvocation K methodName paramsRawVals callType options with
  | (_, some err) => (Outcome.ret (none, some err), w)
  | (inv, none) =>
    match cli.invoker with
    | none => (Outcome.panic nilDereference, w)
    | some invoker =>
      let (res, ext) := invoker.Invoke ctx inv w.ext
      (Outcome.ret (res, none), { ext := ext, invoked := w.invoked ++ [(ctx, inv)] })

/-- Source `Client.CallUnary`: dispatches `[req, resp]` as a unary call and
returns `res.Error()`; the method call panics when `res` is nil. -/
def CallUnary (K : Constant) (cli : Client σ) (w : World σ) (ctx : Context)
    (req resp : Value) (interfaceName methodName : String) (opts : List CallOption) :
    Outcome (Option GoError) × World σ :=
  match cli.call K w ctx [req, resp] interfaceName methodName K.CallUnary opts with
  | (Outcome.panic m, w1) => (Outcome.panic m, w1)
  | (Outcome.ret (_, some err), w1) => (Outcome.ret (some err), w1)
  | (Outcome.ret (none, none), w1) => (Outcome.panic nilDereference, w1)
  | (Outcome.ret (some res, none), w1) => (Outcome.ret res.Error, w1)

/-- Source `Client.CallClientStream`: dispatches with nil parameters and
returns `(res.Result(), res.Error())`, or `(nil, err)` on a dispatch
error; the method calls panic when `res` is nil. -/
def CallClientStream (K : Constant) (cli : Client σ) (w : World σ) (ctx : Context)
    (interfaceName methodName : String) (opts : List CallOption) :
    Outcome (Value × Option GoError) × World σ :=
  match cli.call K w ctx [] interfaceName methodName K.CallClientStream opts with
  | (Outcome.panic m, w1) => (Outcome.panic m, w1)
  | (Outcome.ret (_, some err), w1) => (Outcome.ret (Value.nil, some err), w1)
  | (Outcome.ret (none, none), w1) => (Outcome.panic nilDereference, w1)
  | (Outcome.ret (some res, none), w1) => (Outcome.ret (res.Result, res.Error), w1)

/-- Source `Client.CallServerStream`: dispatches `[req]` and returns
`(res.Result(), res.Error())`, or `(nil, err)` on a dispatch error. -/
def CallServerStream (K : Constant) (cli : Client σ) (w : World σ) (ctx : Context)
    (req : Value) (interfaceName methodName : String) (opts : List CallOption) :
    Outcome (Value × Option GoError) × World σ :=
  match cli.call K w ctx [req] interfaceName methodName K.CallServerStream opts with
  | (Outcome.panic m, w1) => (Outcome.panic m, w1)
  | (Outcome.ret (_, some err), w1) => (Outcome.ret (Value.nil, some err), w1)
  | (Outcome.ret (none, none), w1) => (Outcome.panic nilDereference, w1)
  | (Outcome.ret (some res, none), w1) => (Outcome.ret (res.Result, res.Error), w1)

/-- Source `Client.CallBidiStream`: dispatches with nil parameters and
returns `(res.Result(), res.Error())`, or `(nil, err)` on a dispatch
error. -/
def CallBidiStream (K : Constant) (cli : Client σ) (w : World σ) (ctx : Context)
    (interfaceName methodName : String) (opts : List CallOption) :
    Outcome (Value × Option GoError) × World σ :=
  match cli.call K w ctx [] interfaceName methodName K.CallBidiStream opts with
  | (Outcome.panic m, w1) => (Outcome.panic m, w1)
  | (Outcome.ret (_, some err), w1) => (Outcome.ret (Value.nil, some err), w1)
  | (Outcome.ret (none, none), w1) => (Outcome.panic nilDereference, w1)
  | (Outcome.ret (some res, none), w1) => (Outcome.ret (res.Result, res.Error), w1)

/-- Source `Client.Init`.  `ReferWithInfo` is the method of the missing
`ReferenceConfig`; it is a parameter, giving the configuration after the
call.  Reading `cli.cfg.invoker` panics when `cli.cfg` is nil. -/
def Init (ReferWithInfo : ReferenceConfig σ → ClientInfo → ReferenceConfig σ)
    (cli : Client σ) (info : Option ClientInfo) : Outcome (Option GoError) × Client σ :=
  match info with
  | none => (Outcome.ret (some (errors.New "ClientInfo is nil")), cli)
  | some i =>
    match cli.cfg with
    | none => (Outcome.panic nilDereference, cli)
    | some cfg =>
      let cfg1 := ReferWithInfo cfg i
      (Outcome.ret none, { cli with cfg := some cfg1, invoker := cfg1.invoker })

end Client

/-- Source `NewClient`.  `refInit` is the `Init` method of the missing
`ReferenceConfig`, a parameter: from the zero configuration and the options
it gives the configuration after the call and its error.  The client is
built with `cfg` alone; every other field has its zero value. -/
def NewClient {σ : Type}
    (refInit : ReferenceConfig σ → List (ReferenceOption σ) → ReferenceConfig σ × Option GoError)
    (opts : List (ReferenceOption σ)) : Option (Client σ) × Option GoError :=
  let newRefCfg : ReferenceConfig σ := { invoker := none, Group := "", Version := "", Cluster := "" }
  match refInit newRefCfg opts with
  | (_, some err) => (none, some err)
  | (cfg, none) => (some { invoker := none, info := none, cfg := some cfg, cliOpts := none }, none)

/-! ## `registry/listener/ServiceInstancesChangedListener.go` -/

/-- Modelled from the spec: the `ServiceInstance` value object, whose
declaration is missing from the sources: one addressable backend. -/
structure ServiceInstance where
  Host : String
  Port : Nat
  ServiceName : String
  Metadata : List (String × String)
  Enabled : Bool
  deriving DecidableEq

namespace event

/-- Modelled from the spec: `ServiceInstancesChangedEvent` of the missing
package `common/observer/event`: the service name, the complete current
membership of that service, and the sequence number the spec has an event
carry. -/
structure ServiceInstancesChangedEvent where
  serviceName : String
  instances : List ServiceInstance
  seq : Nat
  deriving DecidableEq

end event

namespace observer

/-- The `observer.Event` interface value handed to a listener: nil, a
`*ServiceInstancesChangedEvent`, or an event of another concrete type. -/
inductive Event where
  | nil : Event
  | ServiceInstancesChanged : event.ServiceInstancesChangedEvent → Event
  | other : String → Event
  deriving DecidableEq

end observer

/-- The `ServiceInstancesChangedListener` struct: its only field is the
embedded `observer.EventListener` interface value (nil in the listener that
`init` registers). -/
structure ServiceInstancesChangedListener where
  EventListener : Option Nat
  deriving DecidableEq

namespace ServiceInstancesChangedListener

/-- Source `OnEvent`: the body is `return nil`; the event is not read and
the listener is not written. -/
def OnEvent (sicl : ServiceInstancesChangedListener) (_e : observer.Event) :
    Option GoError × ServiceInstancesChangedListener :=
  (none, sicl)

/-- Source `GetPriority`. -/
def GetPriority (_sicl : ServiceInstancesChangedListener) : Int := -1

end ServiceInstancesChangedListener

/-- A read surface of the directory: any function of the listener and a
service name giving a sequence of instances.  The sources declare none
(`Snapshot` is only in the spec), so the theorems range over all of them. -/
abbrev SnapshotReader := ServiceInstancesChangedListener → String → List ServiceInstance

/-- The listener after handling the events of a list one after another
with `OnEvent`, oldest first. -/
def publishAll (sicl : ServiceInstancesChangedListener) (es : List observer.Event) :
    ServiceInstancesChangedListener :=
  es.foldl (fun l e => (l.OnEvent e).2) sicl

/-! ## Concrete data for the closed statements -/

/-- A concrete choice of the five constants. -/
def sampleConstant : Constant :=
  { CallTypeKey := "call-type", CallUnary := "unary", CallClientStream := "client-stream",
    CallServerStream := "server-stream", CallBidiStream := "bidi-stream" }

/-- An Invoker that never looks at the context: it answers every invocation
with the value `obj 7` and a nil error, and counts its calls in the
external state. -/
def okInvoker : protocol.Invoker Nat :=
  { Invoke := fun _ _ n => (some { Result := Value.obj 7, Error := none }, n + 1) }

/-- An Invoker that answers every invocation with a transport error. -/
def failingInvoker : protocol.Invoker Nat :=
  { Invoke := fun _ _ n =>
      (some { Result := Value.nil, Error := some (errors.New "transport failure") }, n + 1) }

/-- A configuration whose invoker is `okInvoker`. -/
def sampleConfig : ReferenceConfig Nat :=
  { invoker := some okInvoker, Group := "", Version := "", Cluster := "failover" }

/-- An initialized client bound to `okInvoker`. -/
def sampleClient : Client Nat :=
  { invoker := some okInvoker, info := none, cfg := some sampleConfig, cliOpts := none }

/-- An initialized client bound to `failingInvoker`. -/
def failingClient : Client Nat :=
  { invoker := some failingInvoker, info := none, cfg := some sampleConfig, cliOpts := none }

/-- A world in which no Invoker has been invoked yet. -/
def world0 : World Nat := { ext := 0, invoked := [] }

/-- A live context. -/
def liveCtx : Context := { Err := none, Deadline := none }

/-- A context that is already canceled. -/
def canceledCtx : Context := { Err := some context.Canceled, Deadline := none }

/-- A `ReferenceConfig.Init` that applies the options and reports no error. -/
def sampleRefInit (cfg : ReferenceConfig Nat) (opts : List (ReferenceOption Nat)) :
    ReferenceConfig Nat × Option GoError :=
  (opts.foldl (fun c opt => opt c) cfg, none)

/-- A `ReferWithInfo` that resolves the invoker of the configuration to
`okInvoker`. -/
def sampleReferWithInfo (cfg : ReferenceConfig Nat) (_i : ClientInfo) : ReferenceConfig Nat :=
  { cfg with invoker := some okInvoker }

/-- A descriptor of a target interface. -/
def sampleInfo : ClientInfo :=
  { InterfaceName := "greet.GreetService", MethodNames := ["Greet"],
    ClientInjectFunc := none, Meta := [] }

/-- A call option that sets the retry count. -/
def withRetries (n : String) : CallOption := fun o => { o with Retries := n }

/-- Instance A of the scenario. -/
def instA : ServiceInstance :=
  { Host := "10.0.0.1", Port := 20000, ServiceName := "orders", Metadata := [], Enabled := true }

/-- Instance B of the scenario. -/
def instB : ServiceInstance :=
  { Host := "10.0.0.2", Port := 20000, ServiceName := "orders", Metadata := [], Enabled := true }

/-- Instance C of the scenario. -/
def instC : ServiceInstance :=
  { Host := "10.0.0.3", Port := 20000, ServiceName := "orders", Metadata := [], Enabled := true }

/-- The listener that `init` registers: `&ServiceInstancesChangedListener{}`. -/
def listener0 : ServiceInstancesChangedListener := { EventListener := none }

/-- First event of the scenario: `[A,B]` with sequence number 1. -/
def ordersSeq1 : observer.Event :=
  observer.Event.ServiceInstancesChanged
    { serviceName := "orders", instances := [instA, instB], seq := 1 }

/-- Second event of the scenario: `[A]` with sequence number 2. -/
def ordersSeq2 : observer.Event :=
  observer.Event.ServiceInstancesChanged
    { serviceName := "orders", instances := [instA], seq := 2 }

/-- Third, stale event of the scenario: `[A,B,C]` with sequence number 1. -/
def ordersStale : observer.Event :=
  observer.Event.ServiceInstancesChanged
    { serviceName := "orders", instances := [instA, instB, instC], seq := 1 }

/-- A malformed event: the service name is missing. -/
def namelessEvent : observer.Event :=
  observer.Event.ServiceInstancesChanged { serviceName := "", instances := [instA], seq := 1 }

/-! ## Shared lemmas -/

/-- The envelope `generateInvocation` returns, written out. -/
theorem generateInvocation_eq (K : Constant) (m : String) (ps : List Value) (ct : String)
    (o : CallOptions) :
    generateInvocation K m ps ct o =
      ({ methodName := m, parameterRawValues := ps,
         attributes := [(K.CallTypeKey, Value.str ct)] }, none) := by
  simp [generateInvocation, RPCInvocation.NewRPCInvocationWithOptions,
    RPCInvocation.WithMethodName, RPCInvocation.WithParameterRawValues,
    RPCInvocation.SetAttribute]

/-- What `call` does on a client whose invoker is bound. -/
theorem call_bound {σ : Type} (K : Constant) (cli : Client σ) (invoker : protocol.Invoker σ)
    (h : cli.invoker = some invoker) (w : World σ) (ctx : Context) (ps : List Value)
    (i m ct : String) (opts : List CallOption) :
    cli.call K w ctx ps i m ct opts =
      (Outcome.ret
        ((invoker.Invoke ctx ⟨m, ps, [(K.CallTypeKey, Value.str ct)]⟩ w.ext).1, none),
       { ext := (invoker.Invoke ctx ⟨m, ps, [(K.CallTypeKey, Value.str ct)]⟩ w.ext).2,
         invoked := w.invoked ++ [(ctx, ⟨m, ps, [(K.CallTypeKey, Value.str ct)]⟩)] }) := by
  simp [Client.call, generateInvocation_eq, h]

/-- What `call` does on a client whose invoker is nil. -/
theorem call_unbound {σ : Type} (K : Constant) (cli : Client σ) (h : cli.invoker = none)
    (w : World σ) (ctx : Context) (ps : List Value) (i m ct : String)
    (opts : List CallOption) :
    cli.call K w ctx ps i m ct opts = (Outcome.panic nilDereference, w) := by
  simp [Client.call, generateInvocation_eq, h]

/-- A client built by `NewClient` has a nil invoker and a configuration. -/
theorem NewClient_fields {σ : Type}
    (refInit : ReferenceConfig σ → List (ReferenceOption σ) → ReferenceConfig σ × Option GoError)
    (opts : List (ReferenceOption σ)) (cli : Client σ) (e : Option GoError)
    (h : NewClient refInit opts = (some cli, e)) :
    cli.invoker = none ∧ cli.cfg ≠ none ∧ e = none := by
  simp only [NewClient] at h
  generalize refInit _ opts = r at h
  rcases r with ⟨cfg, _ | err⟩
  · simp only [Prod.mk.injEq, Option.some.injEq] at h
    obtain ⟨hc, he⟩ := h
    subst hc
    exact ⟨rfl, by simp, he.symm⟩
  · simp at h

/-- What `CallUnary` does on a client whose invoker is bound. -/
theorem CallUnary_bound {σ : Type} (K : Constant) (cli : Client σ)
    (invoker : protocol.Invoker σ) (h : cli.invoker = some invoker) (w : World σ)
    (ctx : Context) (req resp : Value) (i m : String) (opts : List CallOption) :
    cli.CallUnary K w ctx req resp i m opts =
      ((match (invoker.Invoke ctx ⟨m, [req, resp], [(K.CallTypeKey, Value.str K.CallUnary)]⟩
            w.ext).1 with
        | none => Outcome.panic nilDereference
        | some r => Outcome.ret r.Error),
       { ext := (invoker.Invoke ctx ⟨m, [req, resp], [(K.CallTypeKey, Value.str K.CallUnary)]⟩
            w.ext).2,
         invoked := w.invoked ++
            [(ctx, ⟨m, [req, resp], [(K.CallTypeKey, Value.str K.CallUnary)]⟩)] }) := by
  rcases hr : invoker.Invoke ctx ⟨m, [req, resp], [(K.CallTypeKey, Value.str K.CallUnary)]⟩
      w.ext with ⟨_ | r, ext⟩ <;>
    simp [Client.CallUnary, call_bound K cli invoker h, hr]

/-- What `CallClientStream` does on a client whose invoker is bound. -/
theorem CallClientStream_bound {σ : Type} (K : Constant) (cli : Client σ)
    (invoker : protocol.Invoker σ) (h : cli.invoker = some invoker) (w : World σ)
    (ctx : Context) (i m : String) (opts : List CallOption) :
    cli.CallClientStream K w ctx i m opts =
      ((match (invoker.Invoke ctx ⟨m, [], [(K.CallTypeKey, Value.str K.CallClientStream)]⟩
            w.ext).1 with
        | none => Outcome.panic nilDereference
        | some r => Outcome.ret (r.Result, r.Error)),
       { ext := (invoker.Invoke ctx ⟨m, [], [(K.CallTypeKey, Value.str K.CallClientStream)]⟩
            w.ext).2,
         invoked := w.invoked ++
            [(ctx, ⟨m, [], [(K.CallTypeKey, Value.str K.CallClientStream)]⟩)] }) := by
  rcases hr : invoker.Invoke ctx ⟨m, [], [(K.CallTypeKey, Value.str K.CallClientStream)]⟩
      w.ext with ⟨_ | r, ext⟩ <;>
    simp [Client.CallClientStream, call_bound K cli invoker h, hr]

/-- What `CallServerStream` does on a client whose invoker is bound. -/
theorem CallServerStream_bound {σ : Type} (K : Constant) (cli : Client σ)
    (invoker : protocol.Invoker σ) (h : cli.invoker = some invoker) (w : World σ)
    (ctx : Context) (req : Value) (i m : String) (opts : List CallOption) :
    cli.CallServerStream K w ctx req i m opts =
      ((match (invoker.Invoke ctx ⟨m, [req], [(K.CallTypeKey, Value.str K.CallServerStream)]⟩
            w.ext).1 with
        | none => Outcome.panic nilDereference
        | some r => Outcome.ret (r.Result, r.Error)),
       { ext := (invoker.Invoke ctx ⟨m, [req], [(K.CallTypeKey, Value.str K.CallServerStream)]⟩
            w.ext).2,
         invoked := w.invoked ++
            [(ctx, ⟨m, [req], [(K.CallTypeKey, Value.str K.CallServerStream)]⟩)] }) := by
  rcases hr : invoker.Invoke ctx ⟨m, [req], [(K.CallTypeKey, Value.str K.CallServerStream)]⟩
      w.ext with ⟨_ | r, ext⟩ <;>
    simp [Client.CallServerStream, call_bound K cli invoker h, hr]

/-- What `CallBidiStream` does on a client whose invoker is bound. -/
theorem CallBidiStream_bound {σ : Type} (K : Constant) (cli : Client σ)
    (invoker : protocol.Invoker σ) (h : cli.invoker = some invoker) (w : World σ)
    (ctx : Context) (i m : String) (opts : List CallOption) :
    cli.CallBidiStream K w ctx i m opts =
      ((match (invoker.Invoke ctx ⟨m, [], [(K.CallTypeKey, Value.str K.CallBidiStream)]⟩
            w.ext).1 with
        | none => Outcome.panic nilDereference
        | some r => Outcome.ret (r.Result, r.Error)),
       { ext := (invoker.Invoke ctx ⟨m, [], [(K.CallTypeKey, Value.str K.CallBidiStream)]⟩
            w.ext).2,
         invoked := w.invoked ++
            [(ctx, ⟨m, [], [(K.CallTypeKey, Value.str K.CallBidiStream)]⟩)] }) := by
  rcases hr : invoker.Invoke ctx ⟨m, [], [(K.CallTypeKey, Value.str K.CallBidiStream)]⟩
      w.ext with ⟨_ | r, ext⟩ <;>
    simp [Client.CallBidiStream, call_bound K cli invoker h, hr]

/-- Reading the only entry of a one-entry attribute map. -/
theorem GetAttribute_single (m : String) (ps : List Value) (k : String) (v : Value) :
    (RPCInvocation.mk m ps [(k, v)]).GetAttribute k = some v := by
  simp [RPCInvocation.GetAttribute, List.lookup]

/-- Handling any list of events leaves the listener as it was. -/
theorem publishAll_eq (sicl : ServiceInstancesChangedListener) (es : List observer.Event) :
    publishAll sicl es = sicl := by
  induction es generalizing sicl with
  | nil => rfl
  | cons e es ih =>
    simp only [publishAll, List.foldl_cons, ServiceInstancesChangedListener.OnEvent] at ih ⊢
    exact ih sicl

/-! ## The dispatcher builds the documented invocation -/

/-- C1: on a client whose invoker is bound, for every method name (so for
every non-empty one) each of the four `Call*` methods hands the Invoker one
invocation whose attribute map holds the call-type marker `CallTypeKey`
with the call type of that method as its value, as its only entry, and
whose parameters are `[req, resp]` (2) for Unary, `[req]` (1) for
ServerStream and none (0) for ClientStream and BidiStream; and
`generateInvocation` records whatever call type it is given under
`CallTypeKey` and keeps the parameters it is given. -/
theorem dispatch_invocation_shape {σ : Type} (K : Constant) (cli : Client σ)
    (invoker : protocol.Invoker σ) (h : cli.invoker = some invoker) (w : World σ)
    (ctx : Context) (req resp : Value) (i m : String) (opts : List CallOption) :
    (∃ inv, (cli.CallUnary K w ctx req resp i m opts).2.invoked = w.invoked ++ [(ctx, inv)] ∧
        inv.GetAttribute K.CallTypeKey = some (Value.str K.CallUnary) ∧
        inv.attributes.length = 1 ∧ inv.methodName = m ∧
        inv.parameterRawValues = [req, resp] ∧ inv.parameterRawValues.length = 2) ∧
    (∃ inv, (cli.CallServerStream K w ctx req i m opts).2.invoked = w.invoked ++ [(ctx, inv)] ∧
        inv.GetAttribute K.CallTypeKey = some (Value.str K.CallServerStream) ∧
        inv.attributes.length = 1 ∧ inv.methodName = m ∧
        inv.parameterRawValues = [req] ∧ inv.parameterRawValues.length = 1) ∧
    (∃ inv, (cli.CallClientStream K w ctx i m opts).2.invoked = w.invoked ++ [(ctx, inv)] ∧
        inv.GetAttribute K.CallTypeKey = some (Value.str K.CallClientStream) ∧
        inv.attributes.length = 1 ∧ inv.methodName = m ∧
        inv.parameterRawValues.length = 0) ∧
    (∃ inv, (cli.CallBidiStream K w ctx i m opts).2.invoked = w.invoked ++ [(ctx, inv)] ∧
        inv.GetAttribute K.CallTypeKey = some (Value.str K.CallBidiStream) ∧
        inv.attributes.length = 1 ∧ inv.methodName = m ∧
        inv.parameterRawValues.length = 0) ∧
    (∀ (ps : List Value) (ct : String) (o : CallOptions),
        (generateInvocation K m ps ct o).1.GetAttribute K.CallTypeKey = some (Value.str ct) ∧
        (generateInvocation K m ps ct o).1.parameterRawValues = ps ∧
        (generateInvocation K m ps ct o).2 = none) := by
  refine ⟨⟨_, congrArg (fun r => r.2.invoked) (CallUnary_bound K cli invoker h w ctx req resp i m opts),
      GetAttribute_single _ _ _ _, rfl, rfl, rfl, rfl⟩,
    ⟨_, congrArg (fun r => r.2.invoked) (CallServerStream_bound K cli invoker h w ctx req i m opts),
      GetAttribute_single _ _ _ _, rfl, rfl, rfl, rfl⟩,
    ⟨⟨m, [], [(K.CallTypeKey, Value.str K.CallClientStream)]⟩,
      congrArg (fun r => r.2.invoked) (CallClientStream_bound K cli invoker h w ctx i m opts),
      GetAttribute_single _ _ _ _, rfl, rfl, rfl⟩,
    ⟨⟨m, [], [(K.CallTypeKey, Value.str K.CallBidiStream)]⟩,
      congrArg (fun r => r.2.invoked) (CallBidiStream_bound K cli invoker h w ctx i m opts),
      GetAttribute_single _ _ _ _, rfl, rfl, rfl⟩, ?_⟩
  intro ps ct o
  rw [generateInvocation_eq]
  exact ⟨GetAttribute_single _ _ _ _, rfl, rfl⟩

/-- Witness of C1: the unary call on the client bound to `okInvoker`. -/
theorem dispatch_invocation_shape_witness :
    sampleClient.invoker = some okInvoker ∧
    ∃ inv, (sampleClient.CallUnary sampleConstant world0 liveCtx (Value.obj 1) (Value.obj 2)
          "greet.GreetService" "Greet" []).2.invoked = world0.invoked ++ [(liveCtx, inv)] ∧
        inv.GetAttribute sampleConstant.CallTypeKey = some (Value.str sampleConstant.CallUnary) ∧
        inv.attributes.length = 1 ∧ inv.methodName = "Greet" ∧
        inv.parameterRawValues = [Value.obj 1, Value.obj 2] ∧
        inv.parameterRawValues.length = 2 :=
  ⟨rfl, (dispatch_invocation_shape sampleConstant sampleClient okInvoker rfl world0 liveCtx
    (Value.obj 1) (Value.obj 2) "greet.GreetService" "Greet" []).1⟩

/-! ## Invocation construction never fails -/

/-- C2, counterexample: with the empty method name `generateInvocation`
returns a nil error, and `CallUnary` with the empty method name on a bound
client invokes the Invoker and returns its nil error. -/
theorem empty_method_not_rejected :
    (generateInvocation sampleConstant "" [Value.obj 1] sampleConstant.CallUnary
        newDefaultCallOptions).2 = none ∧
    sampleClient.CallUnary sampleConstant world0 liveCtx (Value.obj 1) (Value.obj 2)
        "greet.GreetService" "" [] =
      (Outcome.ret none,
       { ext := 1,
         invoked := [(liveCtx, ⟨"", [Value.obj 1, Value.obj 2],
            [("call-type", Value.str "unary")]⟩)] }) :=
  ⟨rfl, rfl⟩

/-- C2, amended: building an invocation with the empty method name does
not fail.  For every parameter list, call type and options
`generateInvocation` returns a nil error and an invocation whose method
name is empty, and `call` on a client whose invoker is bound passes that
invocation to the Invoker, once, and returns what the Invoker returns with
a nil error. -/
theorem empty_method_dispatched {σ : Type} (K : Constant) (ps : List Value) (ct : String)
    (o : CallOptions) (cli : Client σ) (invoker : protocol.Invoker σ)
    (h : cli.invoker = some invoker) (w : World σ) (ctx : Context) (i : String)
    (opts : List CallOption) :
    (generateInvocation K "" ps ct o).2 = none ∧
    (generateInvocation K "" ps ct o).1.methodName = "" ∧
    (cli.call K w ctx ps i "" ct opts).1 =
      Outcome.ret ((invoker.Invoke ctx (generateInvocation K "" ps ct o).1 w.ext).1, none) ∧
    (cli.call K w ctx ps i "" ct opts).2.invoked =
      w.invoked ++ [(ctx, (generateInvocation K "" ps ct o).1)] := by
  rw [call_bound K cli invoker h, generateInvocation_eq]
  exact ⟨rfl, rfl, rfl, rfl⟩

/-- Witness of C2 amended: the empty method name on the client bound to
`okInvoker`. -/
theorem empty_method_dispatched_witness :
    sampleClient.invoker = some okInvoker ∧
    (generateInvocation sampleConstant "" [] "unary" newDefaultCallOptions).2 = none ∧
    (generateInvocation sampleConstant "" [] "unary" newDefaultCallOptions).1.methodName = "" ∧
    (sampleClient.call sampleConstant world0 liveCtx [] "greet.GreetService" "" "unary" []).1 =
      Outcome.ret ((okInvoker.Invoke liveCtx
        (generateInvocation sampleConstant "" [] "unary" newDefaultCallOptions).1
        world0.ext).1, none) ∧
    (sampleClient.call sampleConstant world0 liveCtx [] "greet.GreetService" "" "unary"
        []).2.invoked =
      world0.invoked ++
        [(liveCtx, (generateInvocation sampleConstant "" [] "unary" newDefaultCallOptions).1)] :=
  ⟨rfl, empty_method_dispatched sampleConstant [] "unary" newDefaultCallOptions sampleClient
    okInvoker rfl world0 liveCtx "greet.GreetService" []⟩

/-- C3, counterexample: the call type "bogus" is none of the four constants,
and `generateInvocation` returns a nil error for it, with "bogus" recorded
as the call type. -/
theorem bogus_call_type_not_rejected :
    "bogus" ∉ [sampleConstant.CallUnary, sampleConstant.CallClientStream,
      sampleConstant.CallServerStream, sampleConstant.CallBidiStream] ∧
    generateInvocation sampleConstant "m" [] "bogus" newDefaultCallOptions =
      (⟨"m", [], [("call-type", Value.str "bogus")]⟩, none) := by
  refine ⟨by decide, rfl⟩

/-- C3, amended: `generateInvocation` does not check the call type.  For
every method name and every call-type string, one of the four constants or
not, it returns a nil error and an invocation that records that very
string under `CallTypeKey`, as the only attribute. -/
theorem call_type_recorded_unchecked (K : Constant) (m : String) (ps : List Value)
    (ct : String) (o : CallOptions) :
    (generateInvocation K m ps ct o).2 = none ∧
    (generateInvocation K m ps ct o).1.GetAttribute K.CallTypeKey = some (Value.str ct) ∧
    (generateInvocation K m ps ct o).1.attributes = [(K.CallTypeKey, Value.str ct)] := by
  rw [generateInvocation_eq]
  exact ⟨rfl, GetAttribute_single _ _ _ _, rfl⟩

/-! ## Calls before `Init` -/

/-- C4, counterexample: `NewClient` returns a client, and `CallUnary` on
it, before any `Init`, returns no error at all: the call panics. -/
theorem uninitialized_call_returns_no_error :
    ∃ cli : Client Nat, NewClient sampleRefInit [] = (some cli, none) ∧
      (cli.CallUnary sampleConstant world0 liveCtx (Value.obj 1) (Value.obj 2)
          "greet.GreetService" "Greet" []).1 = Outcome.panic nilDereference ∧
      ∀ e : GoError,
        (cli.CallUnary sampleConstant world0 liveCtx (Value.obj 1) (Value.obj 2)
          "greet.GreetService" "Greet" []).1 ≠ Outcome.ret (some e) :=
  ⟨{ invoker := none, info := none,
     cfg := some { invoker := none, Group := "", Version := "", Cluster := "" },
     cliOpts := none },
   rfl, rfl, fun _ hc => Outcome.noConfusion hc⟩

/-- C4, amended: the dispatcher has no initialization check.  On a client
returned by `NewClient` on which `Init` has not been called the invoker is
nil, and each of `CallUnary`, `CallClientStream`, `CallServerStream` and
`CallBidiStream`, for every context, method name and arguments, builds the
invocation and panics with a nil dereference at `cli.invoker.Invoke`
instead of returning an error; no Invoker is invoked and the world is
unchanged. -/
theorem uninitialized_call_panics {σ : Type}
    (refInit : ReferenceConfig σ → List (ReferenceOption σ) → ReferenceConfig σ × Option GoError)
    (ropts : List (ReferenceOption σ)) (cli : Client σ)
    (hnew : NewClient refInit ropts = (some cli, none))
    (K : Constant) (w : World σ) (ctx : Context) (req resp : Value) (i m : String)
    (opts : List CallOption) :
    cli.invoker = none ∧
    cli.CallUnary K w ctx req resp i m opts = (Outcome.panic nilDereference, w) ∧
    cli.CallClientStream K w ctx i m opts = (Outcome.panic nilDereference, w) ∧
    cli.CallServerStream K w ctx req i m opts = (Outcome.panic nilDereference, w) ∧
    cli.CallBidiStream K w ctx i m opts = (Outcome.panic nilDereference, w) := by
  have h := (NewClient_fields refInit ropts cli none hnew).1
  refine ⟨h, ?_, ?_, ?_, ?_⟩
  · simp [Client.CallUnary, call_unbound K cli h]
  · simp [Client.CallClientStream, call_unbound K cli h]
  · simp [Client.CallServerStream, call_unbound K cli h]
  · simp [Client.CallBidiStream, call_unbound K cli h]

/-- Witness of C4 amended: the client `NewClient sampleRefInit []` returns. -/
theorem uninitialized_call_panics_witness :
    ∃ cli : Client Nat, NewClient sampleRefInit [] = (some cli, none) ∧
      cli.invoker = none ∧
      cli.CallUnary sampleConstant world0 canceledCtx (Value.obj 1) (Value.obj 2)
          "greet.GreetService" "Greet" [] = (Outcome.panic nilDereference, world0) ∧
      cli.CallClientStream sampleConstant world0 canceledCtx "greet.GreetService" "Greet" [] =
          (Outcome.panic nilDereference, world0) ∧
      cli.CallServerStream sampleConstant world0 canceledCtx (Value.obj 1)
          "greet.GreetService" "Greet" [] = (Outcome.panic nilDereference, world0) ∧
      cli.CallBidiStream sampleConstant world0 canceledCtx "greet.GreetService" "Greet" [] =
          (Outcome.panic nilDereference, world0) :=
  ⟨{ invoker := none, info := none,
     cfg := some { invoker := none, Group := "", Version := "", Cluster := "" },
     cliOpts := none },
   rfl,
   uninitialized_call_panics sampleRefInit [] _ rfl sampleConstant world0 canceledCtx
     (Value.obj 1) (Value.obj 2) "greet.GreetService" "Greet" []⟩

/-! ## `Init` -/

/-- C5: `Init` with a nil `ClientInfo` returns the non-nil error
"ClientInfo is nil" and leaves the client as it was (same invoker, same
configuration, same everything); `Init` with a non-nil `ClientInfo`, on a
client that has a configuration (as every client built by `NewClient`
has), returns nil and binds the invoker of the client to the invoker of
its configuration as `ReferWithInfo` left it. -/
theorem Init_contract {σ : Type}
    (ReferWithInfo : ReferenceConfig σ → ClientInfo → ReferenceConfig σ)
    (cli0 cli : Client σ) (cfg : ReferenceConfig σ) (info : ClientInfo)
    (hcfg : cli.cfg = some cfg) :
    (cli0.Init ReferWithInfo none).1 = Outcome.ret (some (errors.New "ClientInfo is nil")) ∧
    (cli0.Init ReferWithInfo none).2 = cli0 ∧
    (cli.Init ReferWithInfo (some info)).1 = Outcome.ret none ∧
    (cli.Init ReferWithInfo (some info)).2.cfg = some (ReferWithInfo cfg info) ∧
    (cli.Init ReferWithInfo (some info)).2.invoker = (ReferWithInfo cfg info).invoker ∧
    (cli.Init ReferWithInfo (some info)).2.info = cli.info ∧
    (cli.Init ReferWithInfo (some info)).2.cliOpts = cli.cliOpts := by
  simp [Client.Init, hcfg]

/-- Witness of C5: `Init` on a client that `NewClient` would build, with a
nil and with a non-nil descriptor. -/
theorem Init_contract_witness :
    (Client.mk none none (some sampleConfig) none : Client Nat).cfg = some sampleConfig ∧
    (failingClient.Init sampleReferWithInfo none).1 =
      Outcome.ret (some (errors.New "ClientInfo is nil")) ∧
    (failingClient.Init sampleReferWithInfo none).2 = failingClient ∧
    ((Client.mk none none (some sampleConfig) none).Init sampleReferWithInfo
      (some sampleInfo)).1 = Outcome.ret none ∧
    ((Client.mk none none (some sampleConfig) none).Init sampleReferWithInfo
      (some sampleInfo)).2.cfg = some (sampleReferWithInfo sampleConfig sampleInfo) ∧
    ((Client.mk none none (some sampleConfig) none).Init sampleReferWithInfo
      (some sampleInfo)).2.invoker = (sampleReferWithInfo sampleConfig sampleInfo).invoker ∧
    ((Client.mk none none (some sampleConfig) none).Init sampleReferWithInfo
      (some sampleInfo)).2.info = none ∧
    ((Client.mk none none (some sampleConfig) none).Init sampleReferWithInfo
      (some sampleInfo)).2.cliOpts = none :=
  ⟨rfl, Init_contract sampleReferWithInfo failingClient
    (Client.mk none none (some sampleConfig) none) sampleConfig sampleInfo rfl⟩

/-! ## The Result of the Invoker is surfaced as it is -/

/-- C6: on a client whose invoker is bound (invocation construction always
succeeds), each `Call*` method invokes the Invoker exactly once, with the
context of the caller and the invocation it built: the record of `Invoke`
calls grows by that one entry and the external state is the one that
single `Invoke` left.  For the Result `r` the Invoker returned, `CallUnary`
returns exactly `r.Error`, and `CallClientStream`, `CallServerStream` and
`CallBidiStream` return exactly the pair `(r.Result, r.Error)`. -/
theorem invoker_result_surfaced {σ : Type} (K : Constant) (cli : Client σ)
    (invoker : protocol.Invoker σ) (h : cli.invoker = some invoker) (w : World σ)
    (ctx : Context) (req resp : Value) (i m : String) (opts : List CallOption) :
    (∀ (r : protocol.Result) (ext : σ),
      invoker.Invoke ctx ⟨m, [req, resp], [(K.CallTypeKey, Value.str K.CallUnary)]⟩ w.ext
          = (some r, ext) →
      cli.CallUnary K w ctx req resp i m opts =
        (Outcome.ret r.Error,
         { ext := ext,
           invoked := w.invoked ++
             [(ctx, ⟨m, [req, resp], [(K.CallTypeKey, Value.str K.CallUnary)]⟩)] })) ∧
    (∀ (r : protocol.Result) (ext : σ),
      invoker.Invoke ctx ⟨m, [], [(K.CallTypeKey, Value.str K.CallClientStream)]⟩ w.ext
          = (some r, ext) →
      cli.CallClientStream K w ctx i m opts =
        (Outcome.ret (r.Result, r.Error),
         { ext := ext,
           invoked := w.invoked ++
             [(ctx, ⟨m, [], [(K.CallTypeKey, Value.str K.CallClientStream)]⟩)] })) ∧
    (∀ (r : protocol.Result) (ext : σ),
      invoker.Invoke ctx ⟨m, [req], [(K.CallTypeKey, Value.str K.CallServerStream)]⟩ w.ext
          = (some r, ext) →
      cli.CallServerStream K w ctx req i m opts =
        (Outcome.ret (r.Result, r.Error),
         { ext := ext,
           invoked := w.invoked ++
             [(ctx, ⟨m, [req], [(K.CallTypeKey, Value.str K.CallServerStream)]⟩)] })) ∧
    (∀ (r : protocol.Result) (ext : σ),
      invoker.Invoke ctx ⟨m, [], [(K.CallTypeKey, Value.str K.CallBidiStream)]⟩ w.ext
          = (some r, ext) →
      cli.CallBidiStream K w ctx i m opts =
        (Outcome.ret (r.Result, r.Error),
         { ext := ext,
           invoked := w.invoked ++
             [(ctx, ⟨m, [], [(K.CallTypeKey, Value.str K.CallBidiStream)]⟩)] })) := by
  refine ⟨?_, ?_, ?_, ?_⟩
  · intro r ext hr
    rw [CallUnary_bound K cli invoker h, hr]
  · intro r ext hr
    rw [CallClientStream_bound K cli invoker h, hr]
  · intro r ext hr
    rw [CallServerStream_bound K cli invoker h, hr]
  · intro r ext hr
    rw [CallBidiStream_bound K cli invoker h, hr]

/-- Witness of C6: the transport error of `failingInvoker` comes back as it
is from `CallUnary` and from `CallServerStream`. -/
theorem invoker_result_surfaced_witness :
    failingClient.invoker = some failingInvoker ∧
    failingClient.CallUnary sampleConstant world0 liveCtx (Value.obj 1) (Value.obj 2)
        "greet.GreetService" "Greet" [withRetries "3"] =
      (Outcome.ret (some (errors.New "transport failure")),
       { ext := 1,
         invoked := world0.invoked ++
           [(liveCtx, ⟨"Greet", [Value.obj 1, Value.obj 2],
              [(sampleConstant.CallTypeKey, Value.str sampleConstant.CallUnary)]⟩)] }) ∧
    failingClient.CallServerStream sampleConstant world0 liveCtx (Value.obj 1)
        "greet.GreetService" "Greet" [withRetries "3"] =
      (Outcome.ret (Value.nil, some (errors.New "transport failure")),
       { ext := 1,
         invoked := world0.invoked ++
           [(liveCtx, ⟨"Greet", [Value.obj 1],
              [(sampleConstant.CallTypeKey, Value.str sampleConstant.CallServerStream)]⟩)] }) :=
  ⟨rfl,
   (invoker_result_surfaced sampleConstant failingClient failingInvoker rfl world0 liveCtx
      (Value.obj 1) (Value.obj 2) "greet.GreetService" "Greet" [withRetries "3"]).1
      ⟨Value.nil, some (errors.New "transport failure")⟩ 1 rfl,
   (invoker_result_surfaced sampleConstant failingClient failingInvoker rfl world0 liveCtx
      (Value.obj 1) (Value.obj 2) "greet.GreetService" "Greet" [withRetries "3"]).2.2.1
      ⟨Value.nil, some (errors.New "transport failure")⟩ 1 rfl⟩

/-! ## A context that is already canceled -/

/-- C7, counterexample: the client is bound to `okInvoker`, which does not
look at the context.  `CallUnary` with an already canceled context invokes
the Invoker (the record holds one entry) and returns the nil error, which
is neither `Canceled` nor `DeadlineExceeded`. -/
theorem canceled_context_still_dispatched :
    canceledCtx.Err = some context.Canceled ∧
    sampleClient.invoker = some okInvoker ∧
    sampleClient.CallUnary sampleConstant world0 canceledCtx (Value.obj 1) (Value.obj 2)
        "greet.GreetService" "Greet" [] =
      (Outcome.ret none,
       { ext := 1,
         invoked := [(canceledCtx, ⟨"Greet", [Value.obj 1, Value.obj 2],
            [("call-type", Value.str "unary")]⟩)] }) ∧
    (Outcome.ret none : Outcome (Option GoError)) ≠ Outcome.ret (some context.Canceled) ∧
    (Outcome.ret none : Outcome (Option GoError)) ≠
      Outcome.ret (some context.DeadlineExceeded) := by
  refine ⟨rfl, rfl, rfl, by decide, by decide⟩

/-- C7, amended: the dispatcher does not look at the context.  On a client
whose invoker is bound, a `CallUnary` whose context is already canceled
invokes the Invoker exactly once, handing it that context, and returns
exactly the error of the Result the Invoker returned; so the error is
`Canceled` (or `DeadlineExceeded`) exactly when the Invoker reports it. -/
theorem canceled_context_left_to_invoker {σ : Type} (K : Constant) (cli : Client σ)
    (invoker : protocol.Invoker σ) (h : cli.invoker = some invoker) (w : World σ)
    (ctx : Context) (hc : ctx.Err = some context.Canceled) (req resp : Value) (i m : String)
    (opts : List CallOption) (r : protocol.Result) (ext : σ)
    (hr : invoker.Invoke ctx ⟨m, [req, resp], [(K.CallTypeKey, Value.str K.CallUnary)]⟩ w.ext
      = (some r, ext)) :
    (cli.CallUnary K w ctx req resp i m opts).2.invoked =
      w.invoked ++ [(ctx, ⟨m, [req, resp], [(K.CallTypeKey, Value.str K.CallUnary)]⟩)] ∧
    (cli.CallUnary K w ctx req resp i m opts).2.ext = ext ∧
    (cli.CallUnary K w ctx req resp i m opts).1 = Outcome.ret r.Error ∧
    ((cli.CallUnary K w ctx req resp i m opts).1 = Outcome.ret (some context.Canceled) ↔
      r.Error = some context.Canceled) ∧
    ((cli.CallUnary K w ctx req resp i m opts).1 = Outcome.ret (some context.DeadlineExceeded) ↔
      r.Error = some context.DeadlineExceeded) := by
  have _ := hc
  rw [CallUnary_bound K cli invoker h, hr]
  simp

/-- Witness of C7 amended: the canceled context on the client bound to
`failingInvoker`. -/
theorem canceled_context_left_to_invoker_witness :
    failingClient.invoker = some failingInvoker ∧
    canceledCtx.Err = some context.Canceled ∧
    (failingClient.CallUnary sampleConstant world0 canceledCtx (Value.obj 1) (Value.obj 2)
        "greet.GreetService" "Greet" []).2.invoked =
      world0.invoked ++ [(canceledCtx, ⟨"Greet", [Value.obj 1, Value.obj 2],
        [(sampleConstant.CallTypeKey, Value.str sampleConstant.CallUnary)]⟩)] ∧
    (failingClient.CallUnary sampleConstant world0 canceledCtx (Value.obj 1) (Value.obj 2)
        "greet.GreetService" "Greet" []).1 =
      Outcome.ret (some (errors.New "transport failure")) :=
  have key := canceled_context_left_to_invoker sampleConstant failingClient failingInvoker rfl
    world0 canceledCtx rfl (Value.obj 1) (Value.obj 2) "greet.GreetService" "Greet" []
    ⟨Value.nil, some (errors.New "transport failure")⟩ 1 rfl
  ⟨rfl, rfl, key.1, key.2.2.1⟩

/-! ## The listener stores nothing -/

/-- C8, counterexample: no read surface over the listener can show the
scenario.  Whatever `Snapshot` is, it cannot read `[A,B]` after the first
event and `[A]` after the second (nor after the stale third), because the
listener is the same after each of them. -/
theorem scenario_not_reproduced :
    ¬ ∃ Snapshot : SnapshotReader,
      Snapshot (publishAll listener0 [ordersSeq1]) "orders" = [instA, instB] ∧
      Snapshot (publishAll listener0 [ordersSeq1, ordersSeq2]) "orders" = [instA] ∧
      Snapshot (publishAll listener0 [ordersSeq1, ordersSeq2, ordersStale]) "orders"
        = [instA] := by
  rintro ⟨Snapshot, h1, h2, -⟩
  rw [publishAll_eq] at h1 h2
  rw [h1] at h2
  exact absurd h2 (by decide)

/-- C8, amended: `OnEvent` stores nothing.  For every event, with a newer
sequence number or a stale one, it leaves the listener as it was, so every
read surface over the listener returns for every service after the event,
and after any sequence of events, what it returned before: no event
replaces a snapshot, and every event leaves it unchanged. -/
theorem OnEvent_leaves_snapshot (Snapshot : SnapshotReader)
    (sicl : ServiceInstancesChangedListener) (e : observer.Event) (es : List observer.Event)
    (s : String) :
    (sicl.OnEvent e).2 = sicl ∧
    Snapshot (sicl.OnEvent e).2 s = Snapshot sicl s ∧
    Snapshot (publishAll sicl es) s = Snapshot sicl s := by
  refine ⟨rfl, rfl, ?_⟩
  rw [publishAll_eq]

/-! ## `OnEvent` never fails -/

/-- C9, counterexample: for the event whose service name is missing,
`OnEvent` returns the nil error. -/
theorem nameless_event_accepted :
    namelessEvent =
      observer.Event.ServiceInstancesChanged
        { serviceName := "", instances := [instA], seq := 1 } ∧
    (listener0.OnEvent namelessEvent).1 = none :=
  ⟨rfl, rfl⟩

/-- C9, amended: `OnEvent` returns nil for every event: a well-formed
one, one whose service name is missing, a nil one, or one of another type.
It returns an error in no case. -/
theorem OnEvent_returns_nil (sicl : ServiceInstancesChangedListener) (e : observer.Event) :
    (sicl.OnEvent e).1 = none := by
  cases e <;> rfl

/-! ## `interfaceName` and the call options do not influence a dispatch -/

/-- C10: for a fixed client, world, context, method name, call type and raw
parameters, two calls of `call` that differ only in `interfaceName` and in
the call options have the same outcome: the same invocation is handed to
the Invoker, the same Result comes back and the same world is left; and so
have two calls of any of the four `Call*` methods.  `generateInvocation`
itself does not depend on the options it is given. -/
theorem dispatch_ignores_interface_and_options {σ : Type} (K : Constant) (cli : Client σ)
    (w : World σ) (ctx : Context) (ps : List Value) (req resp : Value) (m ct : String)
    (i1 i2 : String) (opts1 opts2 : List CallOption) (o1 o2 : CallOptions) :
    cli.call K w ctx ps i1 m ct opts1 = cli.call K w ctx ps i2 m ct opts2 ∧
    generateInvocation K m ps ct o1 = generateInvocation K m ps ct o2 ∧
    cli.CallUnary K w ctx req resp i1 m opts1 = cli.CallUnary K w ctx req resp i2 m opts2 ∧
    cli.CallClientStream K w ctx i1 m opts1 = cli.CallClientStream K w ctx i2 m opts2 ∧
    cli.CallServerStream K w ctx req i1 m opts1 = cli.CallServerStream K w ctx req i2 m opts2 ∧
    cli.CallBidiStream K w ctx i1 m opts1 = cli.CallBidiStream K w ctx i2 m opts2 := by
  have hcall : ∀ (qs : List Value) (c : String),
      cli.call K w ctx qs i1 m c opts1 = cli.call K w ctx qs i2 m c opts2 := by
    intro qs c
    simp only [Client.call, generateInvocation_eq]
  refine ⟨hcall ps ct, ?_, ?_, ?_, ?_, ?_⟩
  · rw [generateInvocation_eq, generateInvocation_eq]
  · simp only [Client.CallUnary, hcall]
  · simp only [Client.CallClientStream, hcall]
  · simp only [Client.CallServerStream, hcall]
  · simp only [Client.CallBidiStream, hcall]

end Dubbo
